import Mathlib

/-!
Shallow embedding of the logspout-rancher HTTP log adapter
(`http.go`, `rancher.go`, and the stream-loop file of the repository).

External collaborators (the Rancher API client, Go's `encoding/json`,
`strconv.Atoi`, `time.ParseDuration`, the HTTP client) are passed in as
function parameters; everything else is translated directly from the Go
source.  Go maps are modelled as association lists with overwrite-on-insert
semantics; a `nil` Go map (which panics on assignment) is a distinguished
constructor.  Go panics (`die`, index out of range, assignment to a nil map)
are modelled as `none` / explicit fault outcomes.  `time.Duration` is
modelled as an integer number of nanoseconds, exactly as in Go.
-/

set_option autoImplicit false

namespace LogspoutRancher

/-! ## Association-list maps with Go map semantics (overwrite on insert) -/

/-- Insert `(k, v)` into an association list, overwriting an existing binding
for `k` (Go map assignment `m[k] = v`). -/
def insertKV {α : Type} (m : List (String × α)) (k : String) (v : α) :
    List (String × α) :=
  match m with
  | [] => [(k, v)]
  | p :: rest => if p.1 = k then (k, v) :: rest else p :: insertKV rest k v

/-- Go map lookup `m[k]` returning `none` when the key is absent
(Go returns the zero value / nil pointer). -/
def lookupKV {α : Type} (m : List (String × α)) (k : String) : Option α :=
  match m with
  | [] => none
  | p :: rest => if p.1 = k then some p.2 else lookupKV rest k

/-! ## Data model (`rancher.go`) -/

/-- Rancher container labels (`map[string]interface{}` in the source; the
label values are never inspected by this program, only carried through). -/
abbrev Labels := List (String × String)

/-- `DockerInfo` from `rancher.go`: container docker info for event data. -/
structure DockerInfo where
  name : String
  id : String
  image : String
  hostname : String
deriving DecidableEq, Repr

/-- `RancherContainer` from `rancher.go`. -/
structure RancherContainer where
  name : String
  ip : String
  id : String
  hostID : String
  dockerID : String
  labels : Labels
deriving DecidableEq, Repr

/-- `RancherInfo` from `rancher.go` (the `Stack` field is commented out in
the source and hence absent here). -/
structure RancherInfo where
  container : RancherContainer
deriving DecidableEq, Repr

/-- A record of the Rancher API's `client.Container` as used by
`GetRancherId`: only the fields the adapter reads. -/
structure ClientContainer where
  externalId : String
  name : String
  ip : String
  id : String
  hostId : String
  labels : Labels
deriving DecidableEq, Repr

/-- The process-wide container cache `cCache : map[string]*RancherInfo`. -/
abbrev RancherCache := List (String × RancherInfo)

/-! ## Cache operations (`rancher.go`) -/

/-- `ExistsInCache`: linear scan of the cache keys. -/
def ExistsInCache (cache : RancherCache) (containerID : String) : Bool :=
  cache.any (fun kv => kv.1 = containerID)

/-- `GetFromCache`: Go map lookup, nil pointer (`none`) when absent. -/
def GetFromCache (cache : RancherCache) (cID : String) : Option RancherInfo :=
  lookupKV cache cID

/-- `Cache`: add a `RancherInfo` keyed by its `DockerID`. -/
def CacheAdd (cache : RancherCache) (con : RancherInfo) : RancherCache :=
  insertKV cache con.container.dockerID con

/-- `DeleteFromCache`: `delete(cCache, cId)` then return `ExistsInCache cId`
(the existence check runs *after* the deletion, exactly as in the source). -/
def DeleteFromCache (cache : RancherCache) (cId : String) :
    Bool × RancherCache :=
  let cache' := cache.filter (fun kv => kv.1 ≠ cId)
  (ExistsInCache cache' cId, cache')

/-- `GetRancherId`: the API list call with an `externalId` filter is the
external collaborator `api : String → List ClientContainer` (an API error is
logged and leaves no data, i.e. the empty list); the source then scans the
returned data and accepts the first record whose `ExternalId` matches
exactly. -/
def GetRancherId (api : String → List ClientContainer) (cID : String) :
    Option ClientContainer :=
  (api cID).find? (fun data => data.externalId = cID)

/-- Result of one `GetRancherInfo` call: the returned pointer, the cache
afterwards, whether the Rancher API was queried, and whether the
"Removed container ID ... from cache" eviction message was logged. -/
structure ResolveResult where
  info : Option RancherInfo
  cache : RancherCache
  apiCalled : Bool
  evictionLogged : Bool
deriving DecidableEq, Repr

/-- `GetRancherInfo` from `rancher.go`, translated line by line:
on a cache miss it queries the API; when the API yields no match it calls
`DeleteFromCache` and logs the eviction only if the ID still exists
afterwards; on a match it builds the normalized record, caches it and
returns it; on a cache hit it returns `GetFromCache` without any API
call. -/
def GetRancherInfo (api : String → List ClientContainer)
    (cache : RancherCache) (cID : String) : ResolveResult :=
  if ¬ ExistsInCache cache cID then
    match GetRancherId api cID with
    | none =>
      let del := DeleteFromCache cache cID
      if del.1 then
        -- log "Removed container ID %s from cache"; then
        -- log "Could not find rancher metadata in the API"; return nil
        ⟨none, del.2, true, true⟩
      else
        -- return nil (before either log statement)
        ⟨none, del.2, true, false⟩
    | some rcontainer =>
      let container : RancherContainer :=
        ⟨rcontainer.name, rcontainer.ip, rcontainer.id, rcontainer.hostId,
          cID, rcontainer.labels⟩
      let rancherInfo : RancherInfo := ⟨container⟩
      ⟨some rancherInfo, CacheAdd cache rancherInfo, true, false⟩
  else
    ⟨GetFromCache cache cID, cache, false, false⟩

/-! ## Messages (the host framework's `router.Message` plus the container
fields the adapter reads) -/

/-- The parts of a `router.Message` that `Stream` reads: the container's
name, ID, image, hostname and environment, and the raw log payload. -/
structure Message where
  containerName : String
  containerID : String
  containerImage : String
  containerHostname : String
  containerEnv : List String
  data : String
deriving DecidableEq, Repr

/-! ## Field extraction (`GetLogstashFields` in `http.go`) -/

/-- The per-container cache `a.logstashFields`. -/
abbrev FieldsCache := List (String × List (String × String))

/-- Go's `strings.Split` for a single-character separator (the only
separators this program uses are `","` and `"="`), over the underlying
character list: `Split("", sep) = [""]`, `Split("a=b=c", "=") =
["a","b","c"]`. -/
def splitCharAux (sep : Char) : List Char → List Char → List String
  | [], acc => [String.mk acc.reverse]
  | c :: cs, acc =>
    if c = sep then String.mk acc.reverse :: splitCharAux sep cs []
    else splitCharAux sep cs (c :: acc)

/-- `strings.Split(s, sep)` for a one-character `sep`. -/
def stringsSplit (s : String) (sep : Char) : List String :=
  splitCharAux sep s.data []

/-- `strings.HasPrefix` over the underlying character lists. -/
def hasPrefixChars : List Char → List Char → Bool
  | _, [] => true
  | [], _ :: _ => false
  | c :: cs, p :: ps => c = p && hasPrefixChars cs ps

/-- The loop body of `GetLogstashFields` over `strings.Split(fieldsStr, ",")`:
each entry is split on `=` and `sp[0], sp[1]` are read.  An entry whose
split has fewer than two parts makes `sp[1]` panic (index out of range),
modelled as `none`. -/
def parseFieldsList (fs : List String)
    (fields : List (String × String)) : Option (List (String × String)) :=
  match fs with
  | [] => some fields
  | f :: rest =>
    match stringsSplit f '=' with
    | k :: v :: _ => parseFieldsList rest (insertKV fields k v)
    | _ => none

/-- The `if len(fieldsStr) > 0 { ... }` parsing block of
`GetLogstashFields`. -/
def parseFieldsStr (fieldsStr : String) : Option (List (String × String)) :=
  if fieldsStr.length > 0 then parseFieldsList (stringsSplit fieldsStr ',') []
  else some []

/-- The loop over `c.Config.Env` looking for a `LOGSTASH_FIELDS=` entry
(`strings.HasPrefix` then `strings.TrimPrefix`, i.e. dropping the 16
characters of `LOGSTASH_FIELDS=`); the last matching entry wins, the
process-wide value is the fallback. -/
def containerFieldsStr (env : List String) (envLogstash : String) : String :=
  env.foldl
    (fun fieldsStr e =>
      if hasPrefixChars e.data ("LOGSTASH_FIELDS=".data) then
        String.mk (e.data.drop 16)
      else fieldsStr)
    envLogstash

/-- `GetLogstashFields`: cache hit returns the cached mapping; otherwise the
fields string (container env overriding the process env `envLogstash`) is
parsed and the result cached.  `none` is the index-out-of-range panic from
`parseFieldsList`. -/
def GetLogstashFields (envLogstash : String) (msg : Message)
    (cache : FieldsCache) :
    Option (List (String × String) × FieldsCache) :=
  match lookupKV cache msg.containerID with
  | some fields => some (fields, cache)
  | none =>
    match parseFieldsStr (containerFieldsStr msg.containerEnv envLogstash) with
    | none => none
    | some fields => some (fields, insertKV cache msg.containerID fields)

/-- `Modelled from the spec (§4.2, §9):` the extraction as the claim words
it — entries without exactly one `=` are skipped with a diagnostic instead
of faulting.  This definition exists only to be compared with
`parseFieldsStr`, which is the source's behaviour. -/
def parseFieldsStrClaimed (fieldsStr : String) : List (String × String) :=
  if fieldsStr.length > 0 then
    (stringsSplit fieldsStr ',').foldl
      (fun fields f =>
        match stringsSplit f '=' with
        | [k, v] => insertKV fields k v
        | _ => fields)
      []
  else []

/-! ## Configuration (`NewHTTPAdapter` in `http.go`)

`strconv.Atoi` and `time.ParseDuration` are external collaborators, passed
as `atoi : String → Option Int` and `parseDuration : String → Option Int`
(durations in nanoseconds, Go's `time.Duration` representation). -/

/-- `getStringParameter`. -/
def getStringParameter (options : List (String × String))
    (parameterName dfault : String) : String :=
  match lookupKV options parameterName with
  | some value => value
  | none => dfault

/-- `getIntParameter`: an unparsable value is logged and replaced by the
default. -/
def getIntParameter (atoi : String → Option Int)
    (options : List (String × String)) (parameterName : String)
    (dfault : Int) : Int :=
  match lookupKV options parameterName with
  | some value =>
    match atoi value with
    | none => dfault
    | some valueInt => valueInt
  | none => dfault

/-- `getDurationParameter` (nanoseconds). -/
def getDurationParameter (parseDuration : String → Option Int)
    (options : List (String × String)) (parameterName : String)
    (dfault : Int) : Int :=
  match lookupKV options parameterName with
  | some value =>
    match parseDuration value with
    | none => dfault
    | some valueDuration => valueDuration
  | none => dfault

/-- The buffer-capacity computation of `NewHTTPAdapter`:
`capacity < 1 || capacity > 10000` falls back to the default 100. -/
def computeCapacity (atoi : String → Option Int)
    (options : List (String × String)) : Int :=
  let capacity := getIntParameter atoi options "http.buffer.capacity" 100
  if capacity < 1 ∨ capacity > 10000 then 100 else capacity

/-- The flush-timeout computation of `NewHTTPAdapter`, in nanoseconds.
The source tests `timeout.Seconds() < .1 || timeout.Seconds() > 600`;
on `int64` nanoseconds that float comparison is exactly
`timeout < 100000000 ∨ timeout > 600000000000` (0.1 and 600 seconds are
the integer nanosecond counts 1e8 and 6e11, both exactly representable,
and the integer granularity of `time.Duration` leaves no value on which
the float64 rounding of `float64(t)/1e9` could flip either comparison).
The default is `1000ms` = 1e9 ns. -/
def computeTimeout (parseDuration : String → Option Int)
    (options : List (String × String)) : Int :=
  let timeout :=
    getDurationParameter parseDuration options "http.buffer.timeout" 1000000000
  if timeout < 100000000 ∨ timeout > 600000000000 then 1000000000 else timeout

/-! ## Log records and the `Stream` loop -/

/-- A value stored in the outgoing log record
(`map[string]interface{}` values): a string (the `message` wrapper and the
static tag fields), an opaque decoded-JSON fragment, or the `docker` /
`rancher` blocks. -/
inductive Value where
  | vstr (s : String)
  | vjson (s : String)
  | vdocker (d : DockerInfo)
  | vrancher (r : RancherInfo)
deriving DecidableEq, Repr

/-- One enriched log record, `map[string]interface{}`. -/
abbrev LogRecord := List (String × Value)

/-- A Go map variable of type `map[string]interface{}`, which may be nil
(assignment to a nil map panics). -/
inductive GoMap where
  | nilMap
  | mk (entries : LogRecord)
deriving DecidableEq, Repr

/-- The outcome of `json.Unmarshal([]byte(message.Data), &data)` — an
external collaborator, passed to the step function as
`decode : String → UnmarshalResult`:
`err` is any unmarshal error (invalid JSON, or valid JSON that is not an
object), `objMap m` is a successful decode of a JSON object, and `nilMap`
is a successful decode that leaves the map nil (Go decodes the JSON
literal `null` into a nil map with no error). -/
inductive UnmarshalResult where
  | err
  | objMap (m : LogRecord)
  | nilMap
deriving DecidableEq, Repr

/-- Go map assignment `data[k] = v`: panics (`none`) on a nil map. -/
def goAssign (data : GoMap) (k : String) (v : Value) : Option GoMap :=
  match data with
  | .nilMap => none
  | .mk entries => some (.mk (insertKV entries k v))

/-- The record-building section of `Stream` for one message: decode the
payload (on error, a fresh map holding the raw payload under `"message"`),
then assign the static tag fields, then `data["docker"]` and
`data["rancher"]`.  `none` is the nil-map assignment panic. -/
def buildRecord (fields : List (String × String)) (dockerInfo : DockerInfo)
    (rancherInfo : RancherInfo) (decoded : UnmarshalResult)
    (rawData : String) : Option LogRecord :=
  let data0 : GoMap :=
    match decoded with
    | .err => .mk [("message", .vstr rawData)]
    | .objMap m => .mk m
    | .nilMap => .nilMap
  match (do
      let data1 ← fields.foldlM
        (fun data kv => goAssign data kv.1 (.vstr kv.2)) data0
      let data2 ← goAssign data1 "docker" (.vdocker dockerInfo)
      goAssign data2 "rancher" (.vrancher rancherInfo) : Option GoMap) with
  | none => none
  | some .nilMap => none   -- unreachable: goAssign never returns a nil map
  | some (.mk entries) => some entries

/-- The adapter state the `Stream` loop and `flushHttp` mutate, together
with the externally observable effects (payloads handed to the transport
goroutines).  `timerQueued` models whether a `timer.C` event is pending or
the timer armed; `flushHttp` stops/drains it and its deferred
`timer.Reset` rearms it. -/
structure AdapterState where
  buffer : List LogRecord
  capacity : Nat
  timerArmed : Bool
  logstashFields : FieldsCache
  rancherCache : RancherCache
  dispatched : List String
deriving DecidableEq, Repr

/-- Result of one `flushHttp` call: the state afterwards, the buffer it
detached (`none` when the empty-buffer early return fired), and the
payload handed to the transport goroutine (`none` when no request is
made). -/
structure FlushResult where
  state : AdapterState
  detached : Option (List LogRecord)
  sent : Option String
deriving DecidableEq, Repr

/-- `flushHttp`: stop and drain the timer; `defer timer.Reset(timeout)`
(so the timer is rearmed on every exit path); return at once on an empty
buffer; otherwise swap the buffer for a fresh empty one under the mutex,
`json.Marshal` it (external collaborator
`marshal : List LogRecord → Option String`, `none` being a marshal error,
which is logged and aborts the flush), and hand the payload to the
transport goroutine. -/
def flushHttp (marshal : List LogRecord → Option String)
    (a : AdapterState) : FlushResult :=
  if a.buffer.length < 1 then
    ⟨{ a with timerArmed := true }, none, none⟩
  else
    let buffer := a.buffer
    let a1 := { a with buffer := [] }
    match marshal buffer with
    | none => ⟨{ a1 with timerArmed := true }, some buffer, none⟩
    | some payload =>
      ⟨{ a1 with
          timerArmed := true
          dispatched := a1.dispatched ++ [payload] }, some buffer,
        some payload⟩

/-- What one `Stream` iteration did with an arriving message. -/
inductive StepOutcome where
  /-- `GetRancherInfo` returned nil: `continue`, the message is dropped. -/
  | dropped
  /-- `GetLogstashFields` panicked (malformed `LOGSTASH_FIELDS` entry). -/
  | fieldsFault
  /-- assignment to a nil map panicked (payload decoded to a nil map). -/
  | nilMapFault
  /-- the record was appended; `detached`/`sent` report the capacity
  flush, when one fired. -/
  | ok (detached : Option (List LogRecord)) (sent : Option String)
deriving DecidableEq, Repr

/-- Result of one `Stream` iteration on a message. -/
structure StepResult where
  outcome : StepOutcome
  state : AdapterState
deriving DecidableEq, Repr

/-- One iteration of the `message := <-logstream` arm of `Stream`:
build `dockerInfo`, get the static tag fields, resolve Rancher metadata
(dropping the message when that fails), build the record, append it to the
buffer under the mutex, and flush with reason `"full"` when the buffer has
reached capacity. -/
def streamStep (envLogstash : String) (decode : String → UnmarshalResult)
    (api : String → List ClientContainer)
    (marshal : List LogRecord → Option String)
    (a : AdapterState) (message : Message) : StepResult :=
  let dockerInfo : DockerInfo :=
    ⟨message.containerName, message.containerID, message.containerImage,
      message.containerHostname⟩
  match GetLogstashFields envLogstash message a.logstashFields with
  | none => ⟨.fieldsFault, a⟩
  | some (fields, lfCache) =>
    let a1 := { a with logstashFields := lfCache }
    let r := GetRancherInfo api a1.rancherCache message.containerID
    let a2 := { a1 with rancherCache := r.cache }
    match r.info with
    | none => ⟨.dropped, a2⟩
    | some rancherInfo =>
      match buildRecord fields dockerInfo rancherInfo
          (decode message.data) message.data with
      | none => ⟨.nilMapFault, a2⟩
      | some record =>
        let a3 := { a2 with buffer := a2.buffer ++ [record] }
        if a3.buffer.length ≥ a3.capacity then
          let fr := flushHttp marshal a3
          ⟨.ok fr.detached fr.sent, fr.state⟩
        else
          ⟨.ok none none, a3⟩

/-- The `timer.C` arm of `Stream`'s select: flush with reason
`"timeout"`. -/
def timerStep (marshal : List LogRecord → Option String)
    (a : AdapterState) : FlushResult :=
  flushHttp marshal a

/-! ## The transport goroutine's response handling (`flushHttp`'s
`go func` in `http.go`) -/

/-- The response the HTTP client produced; transport-level errors are
`none` (in Go, `client.Do` returns a nil response together with the
error). -/
structure HttpResponse where
  statusCode : Nat
deriving DecidableEq, Repr

/-- How the transport goroutine ends. -/
inductive SendOutcome where
  /-- the goroutine finishes normally (body drained, counters updated). -/
  | continues
  /-- `die(...)` was called: panic, the process terminates. -/
  | crashed
  /-- nil-pointer dereference of `response` after a transport error:
  panic, the process terminates. -/
  | nilDeref
deriving DecidableEq, Repr

/-- The error handling after `response, err := a.client.Do(request)`:
on an error, `die` when `a.crash` is set, otherwise only a debug log —
and then the code falls through to `response.StatusCode` on the nil
response; on a non-200 status, `die` when `a.crash` is set, otherwise a
debug log; then the body is drained and the counters updated. -/
def handleDoResult (crash : Bool) (response : Option HttpResponse) :
    SendOutcome :=
  match response with
  | none =>
    if crash then .crashed
    else .nilDeref   -- `response.StatusCode` on a nil response
  | some r =>
    if r.statusCode ≠ 200 then
      if crash then .crashed else .continues
    else .continues

/-! ## Concrete example inputs used by the witnesses -/

/-- An example Rancher API record for container `"c1"`. -/
def exContainer : ClientContainer :=
  ⟨"c1", "web", "10.42.0.5", "1i5", "1h1", [("io.rancher.stack", "s")]⟩

/-- An example API in which only `"c1"` exists upstream. -/
def exApi : String → List ClientContainer := fun _ => [exContainer]

/-- The `RancherInfo` that `GetRancherInfo` builds from `exContainer`. -/
def exInfo : RancherInfo :=
  ⟨⟨"web", "10.42.0.5", "1i5", "1h1", "c1", [("io.rancher.stack", "s")]⟩⟩

/-- An example message from container `"c1"` with a non-JSON payload. -/
def exMessage : Message := ⟨"cname", "c1", "img", "host", [], "hello"⟩

/-- The `DockerInfo` that `Stream` builds from `exMessage`. -/
def exDocker : DockerInfo := ⟨"cname", "c1", "img", "host"⟩

/-- The record `Stream` builds from `exMessage` (non-JSON payload, no
static tag fields). -/
def exRecord : LogRecord :=
  [("message", .vstr "hello"), ("docker", .vdocker exDocker),
    ("rancher", .vrancher exInfo)]

/-- A fresh adapter state with buffer capacity 1. -/
def exState1 : AdapterState := ⟨[], 1, false, [], [], []⟩

/-! ## Helper lemmas about association-list maps -/

theorem lookupKV_insertKV_self {α : Type} (m : List (String × α))
    (k : String) (v : α) : lookupKV (insertKV m k v) k = some v := by
  induction m with
  | nil => simp [insertKV, lookupKV]
  | cons p rest ih =>
    by_cases h : p.1 = k
    · simp [insertKV, h, lookupKV]
    · simpa [insertKV, h, lookupKV] using ih

theorem lookupKV_insertKV_other {α : Type} (m : List (String × α))
    (k k' : String) (v : α) (h : k' ≠ k) :
    lookupKV (insertKV m k v) k' = lookupKV m k' := by
  induction m with
  | nil => simp [insertKV, lookupKV, Ne.symm h]
  | cons p rest ih =>
    by_cases hp : p.1 = k
    · subst hp
      simp [insertKV, lookupKV, Ne.symm h]
    · by_cases hp' : p.1 = k'
      · simp [insertKV, hp, lookupKV, hp', h]
      · simpa [insertKV, hp, lookupKV, hp'] using ih

theorem lookupKV_some_mem_key {α : Type} (m : List (String × α))
    (k : String) (v : α) (h : lookupKV m k = some v) :
    m.any (fun kv => kv.1 = k) := by
  induction m with
  | nil => simp [lookupKV] at h
  | cons p rest ih =>
    by_cases hp : p.1 = k
    · simp [hp]
    · simp only [lookupKV, if_neg hp] at h
      simp [hp, ih h]

theorem lookupKV_foldl_insert_of_not_key
    (fields : List (String × String)) (es : LogRecord) (k : String)
    (h : ∀ kv ∈ fields, kv.1 ≠ k) :
    lookupKV
      (fields.foldl (fun es kv => insertKV es kv.1 (.vstr kv.2)) es) k
      = lookupKV es k := by
  induction fields generalizing es with
  | nil => rfl
  | cons kv rest ih =>
    have hkv : kv.1 ≠ k := h kv (by simp)
    rw [List.foldl_cons,
      ih (insertKV es kv.1 (.vstr kv.2)) (fun g hg => h g (by simp [hg])),
      lookupKV_insertKV_other es kv.1 k _ (fun h' => hkv h'.symm)]

/-! ## Helper lemmas about the record builder -/

theorem foldlM_goAssign_mk (fields : List (String × String))
    (es : LogRecord) :
    fields.foldlM (fun data kv => goAssign data kv.1 (.vstr kv.2))
        (GoMap.mk es)
      = some (.mk (fields.foldl
          (fun es kv => insertKV es kv.1 (.vstr kv.2)) es)) := by
  induction fields generalizing es with
  | nil => rfl
  | cons kv rest ih => simpa [goAssign] using ih (insertKV es kv.1 (.vstr kv.2))

theorem buildRecord_err (fields : List (String × String)) (d : DockerInfo)
    (ri : RancherInfo) (rawData : String) :
    buildRecord fields d ri .err rawData =
      some (insertKV
        (insertKV
          (fields.foldl (fun es kv => insertKV es kv.1 (.vstr kv.2))
            [("message", .vstr rawData)])
          "docker" (.vdocker d))
        "rancher" (.vrancher ri)) := by
  unfold buildRecord
  dsimp only
  rw [foldlM_goAssign_mk]
  simp [goAssign]

theorem buildRecord_objMap (fields : List (String × String))
    (d : DockerInfo) (ri : RancherInfo) (m : LogRecord) (rawData : String) :
    buildRecord fields d ri (.objMap m) rawData =
      some (insertKV
        (insertKV
          (fields.foldl (fun es kv => insertKV es kv.1 (.vstr kv.2)) m)
          "docker" (.vdocker d))
        "rancher" (.vrancher ri)) := by
  unfold buildRecord
  dsimp only
  rw [foldlM_goAssign_mk]
  simp [goAssign]

theorem buildRecord_nilMap (fields : List (String × String))
    (d : DockerInfo) (ri : RancherInfo) (rawData : String) :
    buildRecord fields d ri .nilMap rawData = none := by
  cases fields with
  | nil => rfl
  | cons kv rest => simp [buildRecord, goAssign, List.foldlM]

/-! ## Helper lemmas about field parsing -/

theorem parseFieldsList_ok (fs : List String) (acc : List (String × String))
    (h : ∀ f ∈ fs, 2 ≤ (stringsSplit f '=').length) :
    parseFieldsList fs acc =
      some (fs.foldl
        (fun fields f =>
          insertKV fields ((stringsSplit f '=').headD "")
            ((stringsSplit f '=').getD 1 "")) acc) := by
  induction fs generalizing acc with
  | nil => rfl
  | cons f rest ih =>
    have hf := h f (by simp)
    cases hsp : stringsSplit f '=' with
    | nil => rw [hsp] at hf; simp at hf
    | cons k t1 =>
      cases t1 with
      | nil => rw [hsp] at hf; simp at hf
      | cons v t =>
        simp only [parseFieldsList, hsp]
        rw [ih _ (fun g hg => h g (by simp [hg]))]
        simp [List.foldl_cons, hsp]

theorem parseFieldsList_fault (fs : List String)
    (acc : List (String × String))
    (h : ∃ f ∈ fs, (stringsSplit f '=').length < 2) :
    parseFieldsList fs acc = none := by
  induction fs generalizing acc with
  | nil => simp at h
  | cons f rest ih =>
    cases hsp : stringsSplit f '=' with
    | nil => simp [parseFieldsList, hsp]
    | cons k t1 =>
      cases t1 with
      | nil => simp [parseFieldsList, hsp]
      | cons v t =>
        simp only [parseFieldsList, hsp]
        apply ih
        rcases h with ⟨g, hg, hlen⟩
        rcases List.mem_cons.mp hg with hg | hg
        · subst hg; rw [hsp] at hlen; simp at hlen; omega
        · exact ⟨g, hg, hlen⟩

/-! ## The claims -/

/-- C1: the claim says a failed dispatch (transport error or non-200
response) with crash-on-error disabled is only logged and the process
continues.  The code does behave so for a non-200 response, and terminates
via `die` whenever crash-on-error is enabled; but on a transport-level
error with crash-on-error disabled it logs and then falls through to
`response.StatusCode` on the nil response, a nil-pointer dereference that
terminates the process.  This theorem evaluates the response handling on
all five cases. -/
theorem C1_transport_error_policy :
    handleDoResult false none = SendOutcome.nilDeref
    ∧ handleDoResult true none = SendOutcome.crashed
    ∧ handleDoResult false (some ⟨500⟩) = SendOutcome.continues
    ∧ handleDoResult true (some ⟨500⟩) = SendOutcome.crashed
    ∧ handleDoResult false (some ⟨200⟩) = SendOutcome.continues
    ∧ handleDoResult true (some ⟨200⟩) = SendOutcome.continues := by
  decide

/-- C2: the claim says a cached container ID whose later resolution finds
no upstream record is evicted (with a log line) and subsequent lines are
dropped.  In the code a cached ID is never re-resolved: with `"c1"` cached
and an upstream API that no longer has any record, `GetRancherInfo`
returns the stale cached record, performs no API call, removes nothing
and logs nothing (first conjunct); and even on the uncached not-found path
`DeleteFromCache` reports existence *after* deleting, so the eviction log
line is unreachable (second conjunct). -/
theorem C2_cached_id_never_evicted :
    GetRancherInfo (fun _ => []) [("c1", exInfo)] "c1"
        = ⟨some exInfo, [("c1", exInfo)], false, false⟩
    ∧ GetRancherInfo (fun _ => []) [] "c1" = ⟨none, [], true, false⟩ := by
  constructor <;> rfl

/-- C3 counterexample: the claim says an entry without exactly one `=` is
skipped with a diagnostic.  On `"abc"` the code faults (index out of
range on `sp[1]`) where the claimed behaviour yields an empty mapping; on
`"a=b=c"` (two `=`) the code adds `a ↦ b` where the claimed behaviour
skips the entry. -/
theorem C3_counterexample :
    parseFieldsStr "abc" = none
    ∧ parseFieldsStrClaimed "abc" = []
    ∧ parseFieldsStr "a=b=c" = some [("a", "b")]
    ∧ parseFieldsStrClaimed "a=b=c" = [] := by
  refine ⟨rfl, rfl, rfl, rfl⟩

/-- C3 amended: field extraction splits the configuration string on
commas; an entry whose `=`-split has fewer than two parts makes the
extraction fault (index out of range), and otherwise each entry
contributes `sp[0] ↦ sp[1]` to the mapping (later segments of a
multi-`=` entry are discarded). -/
theorem C3_amended_extraction (s : String) (h : 0 < s.length) :
    ((∀ f ∈ stringsSplit s ',', 2 ≤ (stringsSplit f '=').length) →
        parseFieldsStr s =
          some ((stringsSplit s ',').foldl
            (fun fields f =>
              insertKV fields ((stringsSplit f '=').headD "")
                ((stringsSplit f '=').getD 1 "")) []))
    ∧ ((∃ f ∈ stringsSplit s ',', (stringsSplit f '=').length < 2) →
        parseFieldsStr s = none) := by
  constructor
  · intro hall
    rw [parseFieldsStr, if_pos (by omega), parseFieldsList_ok _ _ hall]
  · intro hbad
    rw [parseFieldsStr, if_pos (by omega), parseFieldsList_fault _ _ hbad]

/-- C3 witness: on `"k=v,x"` the first entry is well-formed and the second
has no `=`, so extraction faults. -/
theorem C3_amended_extraction_witness :
    0 < ("k=v,x" : String).length
    ∧ (∃ f ∈ stringsSplit "k=v,x" ',', (stringsSplit f '=').length < 2)
    ∧ parseFieldsStr "k=v,x" = none := by
  refine ⟨by decide, ⟨"x", by decide, by decide⟩, ?_⟩
  exact (C3_amended_extraction "k=v,x" (by decide)).2 ⟨"x", by decide, by decide⟩

theorem ExistsInCache_of_lookup (cache : RancherCache) (cID : String)
    (info : RancherInfo) (h : lookupKV cache cID = some info) :
    ExistsInCache cache cID = true := by
  simpa [ExistsInCache] using lookupKV_some_mem_key cache cID info h

/-- C5: a flush whose buffer is empty, or whose detached buffer fails to
serialize, hands nothing to the transport (no HTTP request), leaves the
dispatched list unchanged, returns normally, and still rearms the flush
timer. -/
theorem C5_no_request_on_empty_or_marshal_failure
    (marshal : List LogRecord → Option String) (a : AdapterState)
    (h : a.buffer = [] ∨ marshal a.buffer = none) :
    (flushHttp marshal a).sent = none
    ∧ (flushHttp marshal a).state.dispatched = a.dispatched
    ∧ (flushHttp marshal a).state.timerArmed = true := by
  rcases h with h | h
  · simp [flushHttp, h]
  · unfold flushHttp
    by_cases hb : a.buffer.length < 1
    · simp [hb]
    · simp [hb, h]

/-- C5 witness: flushing a fresh adapter state (empty buffer) sends
nothing and rearms the timer. -/
theorem C5_no_request_witness :
    (exState1.buffer = []
      ∨ (fun _ => (none : Option String)) exState1.buffer = none)
    ∧ (flushHttp (fun _ => none) exState1).sent = none
    ∧ (flushHttp (fun _ => none) exState1).state.dispatched
        = exState1.dispatched
    ∧ (flushHttp (fun _ => none) exState1).state.timerArmed = true :=
  ⟨Or.inl rfl,
    C5_no_request_on_empty_or_marshal_failure (fun _ => none) exState1
      (Or.inl rfl)⟩

/-- C7: a record reaches the buffer only when Rancher metadata resolution
succeeded: when resolution returns nil the buffer is left unchanged and the
step never reports an appended record, and conversely a step that appended
a record had a successful resolution. -/
theorem C7_append_requires_resolution (envLogstash : String)
    (decode : String → UnmarshalResult) (api : String → List ClientContainer)
    (marshal : List LogRecord → Option String) (a : AdapterState)
    (message : Message) :
    ((GetRancherInfo api a.rancherCache message.containerID).info = none →
        (streamStep envLogstash decode api marshal a message).state.buffer
            = a.buffer
        ∧ ∀ det sent,
            (streamStep envLogstash decode api marshal a message).outcome
              ≠ .ok det sent)
    ∧ ∀ det sent,
        (streamStep envLogstash decode api marshal a message).outcome
            = .ok det sent →
        (GetRancherInfo api a.rancherCache message.containerID).info.isSome := by
  constructor
  · intro hres
    cases hGL : GetLogstashFields envLogstash message a.logstashFields with
    | none => simp [streamStep, hGL]
    | some p =>
      obtain ⟨fields, lfCache⟩ := p
      simp [streamStep, hGL, hres]
  · intro det sent hok
    cases hres :
        (GetRancherInfo api a.rancherCache message.containerID).info with
    | some info => simp
    | none =>
      exfalso
      cases hGL : GetLogstashFields envLogstash message a.logstashFields with
      | none => simp [streamStep, hGL] at hok
      | some p =>
        obtain ⟨fields, lfCache⟩ := p
        simp [streamStep, hGL, hres] at hok

/-- C7 witness: with an upstream API that has no record for the message's
container, the step drops the message and leaves the buffer unchanged. -/
theorem C7_append_requires_resolution_witness :
    (GetRancherInfo (fun _ => []) exState1.rancherCache
        exMessage.containerID).info = none
    ∧ ((streamStep "" (fun _ => .err) (fun _ => [])
          (fun _ => some "[]") exState1 exMessage).state.buffer
        = exState1.buffer
      ∧ ∀ det sent,
          (streamStep "" (fun _ => .err) (fun _ => [])
            (fun _ => some "[]") exState1 exMessage).outcome
            ≠ .ok det sent) :=
  ⟨rfl,
    (C7_append_requires_resolution "" (fun _ => .err) (fun _ => [])
      (fun _ => some "[]") exState1 exMessage).1 rfl⟩

/-- C9: a resolution that returned a record leaves that record cached, so
an immediately following resolution of the same container ID returns the
identical record and performs no API call. -/
theorem C9_second_resolution_cached (api : String → List ClientContainer)
    (cache : RancherCache) (cID : String) (info : RancherInfo)
    (h : (GetRancherInfo api cache cID).info = some info) :
    (GetRancherInfo api (GetRancherInfo api cache cID).cache cID).info
        = some info
    ∧ (GetRancherInfo api (GetRancherInfo api cache cID).cache cID).apiCalled
        = false := by
  cases hc : ExistsInCache cache cID with
  | true =>
    have h' : GetFromCache cache cID = some info := by
      simpa [GetRancherInfo, hc] using h
    simp [GetRancherInfo, hc, h']
  | false =>
    cases hapi : GetRancherId api cID with
    | none =>
      exfalso
      simp only [GetRancherInfo, hc] at h
      rw [hapi] at h
      simp [apply_ite ResolveResult.info] at h
    | some rcontainer =>
      have h1 :
          GetRancherInfo api cache cID =
            ⟨some ⟨⟨rcontainer.name, rcontainer.ip, rcontainer.id,
                rcontainer.hostId, cID, rcontainer.labels⟩⟩,
              insertKV cache cID
                ⟨⟨rcontainer.name, rcontainer.ip, rcontainer.id,
                  rcontainer.hostId, cID, rcontainer.labels⟩⟩,
              true, false⟩ := by
        simp [GetRancherInfo, hc, hapi, CacheAdd]
      rw [h1] at h ⊢
      have h2 :
          (⟨⟨rcontainer.name, rcontainer.ip, rcontainer.id,
            rcontainer.hostId, cID, rcontainer.labels⟩⟩ : RancherInfo)
            = info := by simpa using h
      subst h2
      have hex :
          ExistsInCache
            (insertKV cache cID
              ⟨⟨rcontainer.name, rcontainer.ip, rcontainer.id,
                rcontainer.hostId, cID, rcontainer.labels⟩⟩) cID = true :=
        ExistsInCache_of_lookup _ _ _ (lookupKV_insertKV_self cache cID _)
      simp [GetRancherInfo, hex, GetFromCache, lookupKV_insertKV_self]

/-- C9 witness: resolving `"c1"` against `exApi` from an empty cache and
then resolving again returns the identical record without a second API
call. -/
theorem C9_second_resolution_cached_witness :
    (GetRancherInfo exApi [] "c1").info = some exInfo
    ∧ (GetRancherInfo exApi (GetRancherInfo exApi [] "c1").cache "c1").info
        = some exInfo
    ∧ (GetRancherInfo exApi
        (GetRancherInfo exApi [] "c1").cache "c1").apiCalled = false :=
  ⟨rfl,
    (C9_second_resolution_cached exApi [] "c1" exInfo rfl).1,
    (C9_second_resolution_cached exApi [] "c1" exInfo rfl).2⟩

/-- C10: a message whose payload decodes like the JSON literal `null`
(decode succeeds but leaves the map nil), after successful field
extraction and metadata resolution, faults on the nil-map assignments:
the step ends in `nilMapFault` — neither a graceful skip nor an append —
and the buffer is unchanged. -/
theorem C10_null_payload_faults (envLogstash : String)
    (decode : String → UnmarshalResult) (api : String → List ClientContainer)
    (marshal : List LogRecord → Option String) (a : AdapterState)
    (message : Message) (fields : List (String × String))
    (lfCache : FieldsCache) (info : RancherInfo)
    (hGL : GetLogstashFields envLogstash message a.logstashFields
      = some (fields, lfCache))
    (hres : (GetRancherInfo api a.rancherCache message.containerID).info
      = some info)
    (hdec : decode message.data = .nilMap) :
    (streamStep envLogstash decode api marshal a message).outcome
        = .nilMapFault
    ∧ (streamStep envLogstash decode api marshal a message).state.buffer
        = a.buffer := by
  simp [streamStep, hGL, hres, hdec, buildRecord_nilMap]

/-- C10 witness: a decoder behaving like Go's `json.Unmarshal` on the
payload `"null"` makes the step fault with the buffer unchanged. -/
theorem C10_null_payload_faults_witness :
    GetLogstashFields "" ⟨"cname", "c1", "img", "host", [], "null"⟩
        exState1.logstashFields = some ([], [("c1", [])])
    ∧ (GetRancherInfo exApi exState1.rancherCache "c1").info = some exInfo
    ∧ (fun _ => UnmarshalResult.nilMap) "null" = UnmarshalResult.nilMap
    ∧ (streamStep "" (fun _ => .nilMap) exApi (fun _ => some "[]") exState1
        ⟨"cname", "c1", "img", "host", [], "null"⟩).outcome = .nilMapFault
    ∧ (streamStep "" (fun _ => .nilMap) exApi (fun _ => some "[]") exState1
        ⟨"cname", "c1", "img", "host", [], "null"⟩).state.buffer
        = exState1.buffer :=
  ⟨rfl, rfl, rfl,
    (C10_null_payload_faults "" (fun _ => .nilMap) exApi (fun _ => some "[]")
      exState1 ⟨"cname", "c1", "img", "host", [], "null"⟩ [] [("c1", [])]
      exInfo rfl rfl rfl).1,
    (C10_null_payload_faults "" (fun _ => .nilMap) exApi (fun _ => some "[]")
      exState1 ⟨"cname", "c1", "img", "host", [], "null"⟩ [] [("c1", [])]
      exInfo rfl rfl rfl).2⟩

/-- C4: when the buffer is one short of capacity and an arriving message
is enriched into a record, the step appends it and immediately flushes:
the detached batch is exactly the old buffer plus the new record (arrival
order), its length is exactly the capacity, the request payload is
dispatched exactly when serialization succeeds, the buffer is empty
afterwards, and the timer is rearmed. -/
theorem C4_capacity_flush (envLogstash : String)
    (decode : String → UnmarshalResult) (api : String → List ClientContainer)
    (marshal : List LogRecord → Option String) (a : AdapterState)
    (message : Message) (fields : List (String × String))
    (lfCache : FieldsCache) (info : RancherInfo) (record : LogRecord)
    (hGL : GetLogstashFields envLogstash message a.logstashFields
      = some (fields, lfCache))
    (hres : (GetRancherInfo api a.rancherCache message.containerID).info
      = some info)
    (hrec : buildRecord fields
        ⟨message.containerName, message.containerID, message.containerImage,
          message.containerHostname⟩
        info (decode message.data) message.data = some record)
    (hcap : a.buffer.length + 1 = a.capacity) :
    (streamStep envLogstash decode api marshal a message).outcome
        = .ok (some (a.buffer ++ [record])) (marshal (a.buffer ++ [record]))
    ∧ (a.buffer ++ [record]).length = a.capacity
    ∧ (streamStep envLogstash decode api marshal a message).state.buffer = []
    ∧ (streamStep envLogstash decode api marshal a message).state.timerArmed
        = true := by
  have hlen : (a.buffer ++ [record]).length = a.capacity := by
    simp [List.length_append]; omega
  have hge : (a.buffer ++ [record]).length ≥ a.capacity := by omega
  have hne : ¬ (a.buffer ++ [record]).length < 1 := by
    simp [List.length_append]
  simp only [streamStep, hGL, hres, hrec]
  simp only [if_pos hge]
  unfold flushHttp
  simp only [if_neg hne]
  cases hm : marshal (a.buffer ++ [record]) with
  | none => simp [hm, hlen]
  | some payload => simp [hm, hlen]

/-- C4 witness: with capacity 1 and an empty buffer, one resolvable
message triggers an immediate full-capacity flush with that single record,
emptying the buffer and rearming the timer. -/
theorem C4_capacity_flush_witness :
    GetLogstashFields "" exMessage exState1.logstashFields
        = some ([], [("c1", [])])
    ∧ (GetRancherInfo exApi exState1.rancherCache "c1").info = some exInfo
    ∧ buildRecord [] exDocker exInfo ((fun _ => UnmarshalResult.err)
        exMessage.data) exMessage.data = some exRecord
    ∧ exState1.buffer.length + 1 = exState1.capacity
    ∧ (streamStep "" (fun _ => .err) exApi (fun _ => some "[]") exState1
          exMessage).outcome = .ok (some [exRecord]) (some "[]")
    ∧ ([] ++ [exRecord] : List LogRecord).length = exState1.capacity
    ∧ (streamStep "" (fun _ => .err) exApi (fun _ => some "[]") exState1
          exMessage).state.buffer = []
    ∧ (streamStep "" (fun _ => .err) exApi (fun _ => some "[]") exState1
          exMessage).state.timerArmed = true :=
  ⟨rfl, rfl, rfl, rfl,
    (C4_capacity_flush "" (fun _ => .err) exApi (fun _ => some "[]")
      exState1 exMessage [] [("c1", [])] exInfo exRecord rfl rfl rfl rfl).1,
    (C4_capacity_flush "" (fun _ => .err) exApi (fun _ => some "[]")
      exState1 exMessage [] [("c1", [])] exInfo exRecord rfl rfl rfl rfl).2.1,
    (C4_capacity_flush "" (fun _ => .err) exApi (fun _ => some "[]")
      exState1 exMessage [] [("c1", [])] exInfo exRecord rfl rfl rfl rfl).2.2.1,
    (C4_capacity_flush "" (fun _ => .err) exApi (fun _ => some "[]")
      exState1 exMessage [] [("c1", [])] exInfo exRecord rfl rfl rfl rfl).2.2.2⟩

/-- C6 counterexample: the claim says a non-JSON payload always appears
verbatim under the `message` key.  With a static tag field named
`message` (value `"tag"`), the record built for the non-JSON payload
`"raw"` carries `"tag"` — not the payload — under `message`, because the
static tag fields are assigned after the wrapper. -/
theorem C6_static_tag_overrides_message :
    (buildRecord [("message", "tag")] exDocker exInfo .err "raw").map
        (fun record => lookupKV record "message")
      = some (some (.vstr "tag"))
    ∧ Value.vstr "tag" ≠ Value.vstr "raw" := by
  exact ⟨rfl, by decide⟩

/-- C6 amended: a non-JSON payload appears verbatim under the `message`
key provided no static tag field is named `message`; a payload decoded as
a JSON object is merged directly (not wrapped): every decoded key that is
not overridden by a static tag field and is not `docker` or `rancher`
keeps its decoded value in the output record. -/
theorem C6_payload_merge_or_wrap :
    (∀ (fields : List (String × String)) (d : DockerInfo)
        (ri : RancherInfo) (rawData : String),
      (∀ kv ∈ fields, kv.1 ≠ "message") →
      ∃ record, buildRecord fields d ri .err rawData = some record
        ∧ lookupKV record "message" = some (.vstr rawData))
    ∧ (∀ (fields : List (String × String)) (d : DockerInfo)
        (ri : RancherInfo) (m : LogRecord) (rawData k : String),
      (∀ kv ∈ fields, kv.1 ≠ k) → k ≠ "docker" → k ≠ "rancher" →
      ∃ record, buildRecord fields d ri (.objMap m) rawData = some record
        ∧ lookupKV record k = lookupKV m k) := by
  constructor
  · intro fields d ri rawData hf
    refine ⟨_, buildRecord_err fields d ri rawData, ?_⟩
    rw [lookupKV_insertKV_other _ _ _ _ (by decide),
      lookupKV_insertKV_other _ _ _ _ (by decide),
      lookupKV_foldl_insert_of_not_key _ _ _ hf]
    simp [lookupKV]
  · intro fields d ri m rawData k hf hd hr
    refine ⟨_, buildRecord_objMap fields d ri m rawData, ?_⟩
    rw [lookupKV_insertKV_other _ _ _ _ hr,
      lookupKV_insertKV_other _ _ _ _ hd,
      lookupKV_foldl_insert_of_not_key _ _ _ hf]

/-- C6 witness: a non-JSON payload `"hello"` with no static tag fields is
wrapped verbatim under `message`, and a decoded object keeps its key
`"level"`. -/
theorem C6_payload_merge_or_wrap_witness :
    (∃ record, buildRecord [] exDocker exInfo .err "hello" = some record
      ∧ lookupKV record "message" = some (.vstr "hello"))
    ∧ (∃ record,
        buildRecord [] exDocker exInfo
            (.objMap [("level", .vjson "info")]) "x" = some record
        ∧ lookupKV record "level"
            = lookupKV [("level", .vjson "info")] "level") :=
  ⟨C6_payload_merge_or_wrap.1 [] exDocker exInfo "hello" (by simp),
    C6_payload_merge_or_wrap.2 [] exDocker exInfo [("level", .vjson "info")]
      "x" "level" (by simp) (by decide) (by decide)⟩

/-- C8: configuration fallback.  A buffer capacity that is absent,
unparsable, or outside 1–10000 yields the default 100, and an in-range
value is used as given; a flush timeout that is absent, unparsable, or
outside 100ms–600s (1e8–6e11 ns) yields the default 1000ms (1e9 ns), and
an in-range value is used as given.  None of these cases is an error. -/
theorem C8_config_fallback (atoi parseDuration : String → Option Int)
    (options : List (String × String)) :
    ((lookupKV options "http.buffer.capacity" = none →
        computeCapacity atoi options = 100)
      ∧ (∀ v, lookupKV options "http.buffer.capacity" = some v →
          atoi v = none → computeCapacity atoi options = 100)
      ∧ (∀ v n, lookupKV options "http.buffer.capacity" = some v →
          atoi v = some n →
          ((n < 1 ∨ 10000 < n) → computeCapacity atoi options = 100)
          ∧ (1 ≤ n → n ≤ 10000 → computeCapacity atoi options = n)))
    ∧ ((lookupKV options "http.buffer.timeout" = none →
        computeTimeout parseDuration options = 1000000000)
      ∧ (∀ v, lookupKV options "http.buffer.timeout" = some v →
          parseDuration v = none →
          computeTimeout parseDuration options = 1000000000)
      ∧ (∀ v t, lookupKV options "http.buffer.timeout" = some v →
          parseDuration v = some t →
          ((t < 100000000 ∨ 600000000000 < t) →
            computeTimeout parseDuration options = 1000000000)
          ∧ (100000000 ≤ t → t ≤ 600000000000 →
            computeTimeout parseDuration options = t))) := by
  refine ⟨⟨?_, ?_, ?_⟩, ?_, ?_, ?_⟩
  · intro h
    simp [computeCapacity, getIntParameter, h]
  · intro v hv ha
    simp [computeCapacity, getIntParameter, hv, ha]
  · intro v n hv ha
    constructor
    · intro hout
      simp only [computeCapacity, getIntParameter, hv, ha]
      rw [if_pos (by omega)]
    · intro h1 h2
      simp only [computeCapacity, getIntParameter, hv, ha]
      rw [if_neg (by omega)]
  · intro h
    simp [computeTimeout, getDurationParameter, h]
  · intro v hv ha
    simp [computeTimeout, getDurationParameter, hv, ha]
  · intro v t hv ha
    constructor
    · intro hout
      simp only [computeTimeout, getDurationParameter, hv, ha]
      rw [if_pos (by omega)]
    · intro h1 h2
      simp only [computeTimeout, getDurationParameter, hv, ha]
      rw [if_neg (by omega)]

/-- Example route options with an out-of-range capacity and a too-short
timeout. -/
def exOptions : List (String × String) :=
  [("http.buffer.capacity", "20000"), ("http.buffer.timeout", "50ms")]

/-- An `Atoi` behaving like Go's on the strings that occur in
`exOptions`. -/
def exAtoi : String → Option Int := fun s =>
  if s = "20000" then some 20000 else none

/-- A `ParseDuration` behaving like Go's on the strings that occur in
`exOptions` (50ms = 5e7 ns). -/
def exParseDuration : String → Option Int := fun s =>
  if s = "50ms" then some 50000000 else none

/-- C8 witness: capacity 20000 (out of range) falls back to 100 and a
50ms timeout (below 100ms) falls back to 1000ms. -/
theorem C8_config_fallback_witness :
    lookupKV exOptions "http.buffer.capacity" = some "20000"
    ∧ exAtoi "20000" = some 20000
    ∧ computeCapacity exAtoi exOptions = 100
    ∧ lookupKV exOptions "http.buffer.timeout" = some "50ms"
    ∧ exParseDuration "50ms" = some 50000000
    ∧ computeTimeout exParseDuration exOptions = 1000000000 :=
  ⟨rfl, rfl,
    ((C8_config_fallback exAtoi exParseDuration exOptions).1.2.2 "20000"
      20000 rfl rfl).1 (Or.inr (by norm_num)),
    rfl, rfl,
    ((C8_config_fallback exAtoi exParseDuration exOptions).2.2.2 "50ms"
      50000000 rfl rfl).1 (Or.inl (by norm_num))⟩

end LogspoutRancher
